import Mathlib

/-
Verification of the trio-based requests transport adapter
(`azure/core/pipeline/transport/_requests_trio.py`).

The development shallowly embeds the two pieces of logic the adapter owns:

* `TrioRequestsTransport.send` — building of the blocking `session.request`
  call (primary `trio.to_thread.run_sync` path and the `trio < 0.12.1`
  compatibility fallback path) and the translation of the underlying
  libraries' exception taxonomy into the adapter's error kinds
  (`ServiceRequestError`, `ServiceResponseError`, `IncompleteReadError`).

* `TrioStreamDownloadGenerator` — the streaming pull (`__anext__`), its
  termination, error propagation, logging/close side effects, and `__len__`.

Machine-level side effects (the warning log, closing the underlying
connection) are recorded as an ordered event trace: the events in the trace
occur, in trace order, before the accompanying result is surfaced to the
caller.
-/

namespace AzureCoreTrio

/-- An argument carried by a raised exception (`err.args`).  The send-path
classification only inspects whether `args[0]` is a
`urllib3.exceptions.ProtocolError`, so arguments are modelled by that
distinction alone. -/
inductive ExcArg where
  | protocolError
  | otherArg
deriving DecidableEq, Repr

/-- Exceptions the underlying blocking `session.request` call may raise,
keyed by the `except` clause of `TrioRequestsTransport.send` that would
catch them (the clauses' classes are pairwise disjoint at runtime:
`ReadTimeout`, `ConnectionError`, `ChunkedEncodingError` are distinct
direct descendants of `requests.RequestException`, and
`urllib3.exceptions.NewConnectionError` is outside that hierarchy). -/
inductive UnderlyingExc where
  | newConnectionError
  | readTimeout
  | connectionError (args : List ExcArg)
  | chunkedEncodingError
  | otherRequestException
  | nonRequestsException
deriving DecidableEq, Repr

/-- The adapter's error kinds, each preserving the underlying exception as
its cause (`ServiceRequestError(err, error=err)` etc.). -/
inductive SendError where
  | serviceRequestError (cause : UnderlyingExc)
  | serviceResponseError (cause : UnderlyingExc)
  | incompleteReadError (cause : UnderlyingExc)
deriving DecidableEq, Repr

/-- The `except` chain of `TrioRequestsTransport.send` (lines 188-200):
`some err` means the exception is caught and recorded as `error = err`;
`none` means no clause matches and the exception propagates unchanged. -/
def classifySendExc (e : UnderlyingExc) : Option SendError :=
  match e with
  | .newConnectionError => some (.serviceRequestError e)
  | .readTimeout => some (.serviceResponseError e)
  | .connectionError args =>
      match args with
      | .protocolError :: _ => some (.serviceResponseError e)
      | _ => some (.serviceRequestError e)
  | .chunkedEncodingError => some (.incompleteReadError e)
  | .otherRequestException => some (.serviceRequestError e)
  | .nonRequestsException => none

/-- The body of an outbound request (`request.data`): either already in a
form the blocking library consumes directly, or an asynchronous iterator
that must be serialized before dispatch. -/
inductive Body where
  | empty
  | bytes (bs : List Nat)
  | syncStream (chunks : List (List Nat))
  | asyncStream (chunks : List (List Nat))
deriving DecidableEq, Repr

/-- Modelled from the spec: `RequestsAsyncTransportBase._retrieve_request_data`
(the base class is not among the sampled sources).  The spec says the adapter
"serializes the outbound body if needed" before dispatching the blocking
call: a body the blocking library cannot consume (an asynchronous iterator)
is converted into an equivalent synchronous stream; every other body is
passed through unchanged. -/
def retrieveRequestData : Body → Body
  | .asyncStream chunks => .syncStream chunks
  | b => b

/-- The outbound request as the adapter reads it: method, URL, headers,
body, multipart files (opaque values of type `α`). -/
structure HttpRequest (α : Type) where
  method : String
  url : String
  headers : List (String × String)
  data : Body
  files : Option α
deriving DecidableEq, Repr

/-- Connection-level defaults (`self.connection_config`): TLS verification,
timeout, client certificate (opaque), and the data block size used when
wrapping the response. -/
structure ConnectionConfig (α : Type) where
  verify : α
  timeout : α
  cert : α
  dataBlockSize : Nat
deriving DecidableEq, Repr

/-- Remove a key from keyword options, as `dict.pop` does (keys in a Python
dict are unique, so removing every occurrence agrees with removing the
one occurrence). -/
def removeKw (key : String) : List (String × α) → List (String × α)
  | [] => []
  | p :: rest => if p.1 = key then removeKw key rest else p :: removeKw key rest

/-- `kwargs.pop(key, dflt)`: the popped value (or the default) together with
the remaining keyword options. -/
def popKw (kwargs : List (String × α)) (key : String) (dflt : α) :
    α × List (String × α) :=
  ((kwargs.lookup key).getD dflt, removeKw key kwargs)

/-- `kwargs.pop(key, None)`: as `popKw` but with `None` as the default. -/
def popKwOpt (kwargs : List (String × α)) (key : String) :
    Option α × List (String × α) :=
  (kwargs.lookup key, removeKw key kwargs)

/-- The full argument tuple handed to the blocking `session.request` call:
positional method and URL, the named keyword arguments, the residue of the
caller's keyword options spliced in by `**kwargs`, and the `limiter`
argument of the worker-dispatch primitive. -/
structure SessionCall (α : Type) where
  method : String
  url : String
  headers : List (String × String)
  data : Body
  files : Option α
  verify : α
  timeout : α
  cert : α
  allowRedirects : Bool
  hooks : Option α
  extraKwargs : List (String × α)
  limiter : Option α
deriving DecidableEq, Repr

/-- The blocking call issued by the primary dispatch path of
`TrioRequestsTransport.send` (lines 156-170, `trio.to_thread.run_sync`):
the body is the serialized `data_to_send`; `connection_verify`,
`connection_timeout`, `connection_cert` and `hooks` are popped from the
keyword options with connection-level defaults; redirects are disabled;
the rest of the options are forwarded verbatim; the limiter is read
(without removal) from the original options under `"trio_limiter"`. -/
def primarySessionCall (cfg : ConnectionConfig α) (request : HttpRequest α)
    (kwargs : List (String × α)) : SessionCall α :=
  let (verify, kw1) := popKw kwargs "connection_verify" cfg.verify
  let (timeout, kw2) := popKw kw1 "connection_timeout" cfg.timeout
  let (cert, kw3) := popKw kw2 "connection_cert" cfg.cert
  let (hooks, kw4) := popKwOpt kw3 "hooks"
  { method := request.method
    url := request.url
    headers := request.headers
    data := retrieveRequestData request.data
    files := request.files
    verify := verify
    timeout := timeout
    cert := cert
    allowRedirects := false
    hooks := hooks
    extraKwargs := kw4
    limiter := kwargs.lookup "trio_limiter" }

/-- The blocking call issued by the compatibility fallback path (lines
172-186, `trio.run_sync_in_worker_thread`, taken when `trio.to_thread` is
absent — in which case the primary path's argument expressions, including
its pops, were never evaluated).  Identical to the primary call except that
the body is the raw `request.data` instead of the serialized
`data_to_send`. -/
def fallbackSessionCall (cfg : ConnectionConfig α) (request : HttpRequest α)
    (kwargs : List (String × α)) : SessionCall α :=
  let (verify, kw1) := popKw kwargs "connection_verify" cfg.verify
  let (timeout, kw2) := popKw kw1 "connection_timeout" cfg.timeout
  let (cert, kw3) := popKw kw2 "connection_cert" cfg.cert
  let (hooks, kw4) := popKwOpt kw3 "hooks"
  { method := request.method
    url := request.url
    headers := request.headers
    data := request.data
    files := request.files
    verify := verify
    timeout := timeout
    cert := cert
    allowRedirects := false
    hooks := hooks
    extraKwargs := kw4
    limiter := kwargs.lookup "trio_limiter" }

/-- What the underlying blocking call did: returned a raw response, or
raised an exception. -/
inductive DispatchOutcome where
  | ok (statusCode : Nat) (headers : List (String × Nat))
  | exc (e : UnderlyingExc)
deriving DecidableEq, Repr

/-- The response handle `send` returns on success
(`TrioRequestsTransportResponse(request, response, data_block_size)`).
Header values are modelled post-parse as naturals (the only header the
embedded logic reads, `Content-Length`, is numeric). -/
structure TransportResponse where
  statusCode : Nat
  headers : List (String × Nat)
  blockSize : Nat
deriving DecidableEq, Repr

/-- The observable outcome of `send`: a wrapped response, one of the
adapter's own errors raised via `if error: raise error`, or an exception no
`except` clause matched, propagating unchanged. -/
inductive SendResult where
  | response (r : TransportResponse)
  | failure (e : SendError)
  | uncaught (e : UnderlyingExc)
deriving DecidableEq, Repr

/-- `TrioRequestsTransport.send`, lines 188-205: the dispatch outcome is
translated by the `except` chain; a recorded error is raised (so no
response value reaches the caller); otherwise the raw response is wrapped
with the connection config's data block size. -/
def send (cfg : ConnectionConfig α) (request : HttpRequest α)
    (outcome : DispatchOutcome) : SendResult :=
  match outcome with
  | .ok statusCode headers =>
      .response { statusCode := statusCode, headers := headers
                  blockSize := cfg.dataBlockSize }
  | .exc e =>
      match classifySendExc e with
      | some err => .failure err
      | none => .uncaught e

/-- Whether `send` surfaced a `ServiceResponseError` (the spec's
`ResponseFailure` class). -/
def isResponseFailureClass : SendResult → Bool
  | .failure (.serviceResponseError _) => true
  | _ => false

/-- Whether `send` returned a response value. -/
def isResponse : SendResult → Bool
  | .response _ => true
  | _ => false

/-- A connect-level failure before any read was attempted: a
new-connection failure, or a generic blocking-library connection error
whose first argument is not a protocol error (no bytes were being
exchanged). -/
def isConnectLevelFailure : UnderlyingExc → Bool
  | .newConnectionError => true
  | .connectionError args =>
      match args with
      | .protocolError :: _ => false
      | _ => true
  | _ => false

/-- What one pull of the underlying blocking chunk iterator
(`_iterate_response_content(self.iter_content_func)`) did: yielded a chunk
of bytes (possibly empty), signalled exhaustion (`StopIteration`, surfaced
to `__anext__` as `_ResponseStopIteration`), raised
`requests.exceptions.StreamConsumedError`, or raised some other read
error. -/
inductive PullOutcome where
  | chunk (data : List Nat)
  | stopIteration
  | streamConsumed
  | readError (code : Nat)
deriving DecidableEq, Repr

/-- A side effect `__anext__` performs, in the order performed, before its
result is surfaced to the caller. -/
inductive StreamEvent where
  | logWarning
  | closeConnection
deriving DecidableEq, Repr

/-- What `__anext__` surfaces to the caller: the next chunk, normal
end-of-iteration (`StopAsyncIteration`), the stream-consumed error
re-raised unchanged, or another read error re-raised. -/
inductive AnextResult where
  | chunk (data : List Nat)
  | stopAsyncIteration
  | raisedStreamConsumed
  | raisedReadError (code : Nat)
deriving DecidableEq, Repr

/-- The control flow of `TrioStreamDownloadGenerator.__anext__` (lines
80-104) for one pull outcome, paired with the ordered trace of side effects
performed before the result is surfaced: a falsy chunk raises
`_ResponseStopIteration`, which — like iterator exhaustion — closes the
internal response and surfaces `StopAsyncIteration`; a stream-consumed
error is re-raised as is; any other error is logged at warning level, then
the internal response is closed, then the error is re-raised. -/
def anext : PullOutcome → AnextResult × List StreamEvent
  | .chunk data =>
      if data = [] then (.stopAsyncIteration, [.closeConnection])
      else (.chunk data, [])
  | .stopIteration => (.stopAsyncIteration, [.closeConnection])
  | .streamConsumed => (.raisedStreamConsumed, [])
  | .readError code =>
      (.raisedReadError code, [.logWarning, .closeConnection])

/-- The state of a `TrioStreamDownloadGenerator`: the block size and the
declared content length captured at construction, and the as-yet-unpulled
tail of the underlying blocking iterator. -/
structure TrioStreamDownloadGenerator where
  blockSize : Nat
  contentLength : Nat
  iterState : List PullOutcome
deriving DecidableEq, Repr

/-- `TrioStreamDownloadGenerator.__init__`: the block size is taken from
the response, and the content length is captured once from the response's
`Content-Length` header, defaulting to `0` when the header is absent
(`int(response.headers.get('Content-Length', 0))`; header values are
modelled post-parse).  `iter` is the underlying iterator the generator
will pull from. -/
def mkGenerator (response : TransportResponse) (iter : List PullOutcome) :
    TrioStreamDownloadGenerator :=
  { blockSize := response.blockSize
    contentLength := (response.headers.lookup "Content-Length").getD 0
    iterState := iter }

/-- `TrioStreamDownloadGenerator.__len__`: returns the captured content
length. -/
def TrioStreamDownloadGenerator.len (g : TrioStreamDownloadGenerator) : Nat :=
  g.contentLength

/-- One stateful call of `__anext__`: the next pull outcome is consumed
from the underlying iterator (an exhausted iterator raises `StopIteration`
inside the worker, hence behaves as `PullOutcome.stopIteration`); the
result and event trace are those of `anext`, and the captured fields of the
generator are untouched. -/
def anextStep (g : TrioStreamDownloadGenerator) :
    (AnextResult × List StreamEvent) × TrioStreamDownloadGenerator :=
  match g.iterState with
  | [] => (anext .stopIteration, g)
  | o :: rest => (anext o, { g with iterState := rest })

/-- The generator state after `n` calls of `__anext__`. -/
def consumePulls (g : TrioStreamDownloadGenerator) : Nat →
    TrioStreamDownloadGenerator
  | 0 => g
  | n + 1 => consumePulls (anextStep g).2 n

/-- Removing one key from keyword options leaves lookups of any other key
unchanged. -/
theorem lookup_removeKw_ne {α : Type} (k k' : String) (h : k ≠ k')
    (l : List (String × α)) : (removeKw k' l).lookup k = l.lookup k := by
  induction l with
  | nil => rfl
  | cons p rest ih =>
      by_cases hp : p.1 = k'
      · have hk : (k == k') = false := by
          simp only [beq_eq_false_iff_ne, ne_eq]
          exact h
        simp [removeKw, hp, List.lookup, hk, ih]
      · simp only [removeKw, hp, if_false, List.lookup]
        cases hkp : (k == p.1) <;> simp [ih]

/-- A stateful pull leaves the captured content length unchanged. -/
theorem anextStep_len (g : TrioStreamDownloadGenerator) :
    ((anextStep g).2).len = g.len := by
  unfold anextStep
  cases g.iterState <;> rfl

/-- Fixture: connection-level defaults with opaque values drawn from `Nat`. -/
def cfg0 : ConnectionConfig Nat :=
  { verify := 0, timeout := 1, cert := 2, dataBlockSize := 4096 }

/-- Fixture: a GET request with no body. -/
def req0 : HttpRequest Nat :=
  { method := "GET", url := "https://host/x", headers := [], data := .empty
    files := none }

/-- Fixture: a request whose body is an asynchronous iterator, so it needs
serializing before the blocking dispatch. -/
def reqAsync : HttpRequest Nat :=
  { method := "PUT", url := "https://host/x", headers := [], files := none
    data := .asyncStream [[1, 2], [3]] }

/-- Fixture: a request with a plain bytes body, needing no serialization. -/
def reqBytes : HttpRequest Nat :=
  { method := "PUT", url := "https://host/x", headers := [], files := none
    data := .bytes [1, 2, 3] }

/-- Claim C1 counterexample: when the blocking call raises an unrecognized
exception of the generic request-exception class, `send` does not surface a
`ResponseFailure`-class (`ServiceResponseError`) wrapper — the catch-all
clause wraps it as `ServiceRequestError` instead, refuting the claim at
this input. -/
theorem c1_counterexample :
    isResponseFailureClass (send cfg0 req0 (.exc .otherRequestException)) =
      false ∧
    send cfg0 req0 (.exc .otherRequestException) =
      .failure (.serviceRequestError .otherRequestException) := by
  exact ⟨rfl, rfl⟩

/-- Claim C1 (amended): an unrecognized exception of the blocking library's
generic request-exception class is not swallowed — it propagates wrapped as
a `ConnectionFailure`-class (`ServiceRequestError`) wrapper preserving the
original exception as its cause; an unrecognized exception outside that
class propagates unchanged (unwrapped). -/
theorem c1_amended_unrecognized_exceptions {α : Type}
    (cfg : ConnectionConfig α) (request : HttpRequest α) :
    send cfg request (.exc .otherRequestException) =
      .failure (.serviceRequestError .otherRequestException) ∧
    send cfg request (.exc .nonRequestsException) =
      .uncaught .nonRequestsException := by
  exact ⟨rfl, rfl⟩

/-- Claim C2 counterexample: on a request whose body is an asynchronous
iterator, the primary dispatch path and the compatibility fallback path do
not issue the same blocking call — the primary path sends the serialized
body, the fallback sends the raw one — refuting the claimed equivalence. -/
theorem c2_counterexample :
    primarySessionCall cfg0 reqAsync [] ≠ fallbackSessionCall cfg0 reqAsync []
    := by decide

/-- Claim C2 (amended): the compatibility fallback worker-dispatch path
issues the same underlying blocking call as the primary path — same method,
URL, headers, options and limiter — except for the body argument, where it
passes the raw request body instead of the serialized one; the two paths
therefore coincide exactly for requests whose body needs no serialization. -/
theorem c2_fallback_equivalence {α : Type} (cfg : ConnectionConfig α)
    (request : HttpRequest α) (kwargs : List (String × α))
    (h : retrieveRequestData request.data = request.data) :
    primarySessionCall cfg request kwargs =
      fallbackSessionCall cfg request kwargs := by
  simp [primarySessionCall, fallbackSessionCall, h]

/-- Claim C2 witness: the amended equivalence at a concrete bytes-bodied
request. -/
theorem c2_witness :
    retrieveRequestData reqBytes.data = reqBytes.data ∧
    primarySessionCall cfg0 reqBytes [("proxies", 7)] =
      fallbackSessionCall cfg0 reqBytes [("proxies", 7)] :=
  ⟨rfl, c2_fallback_equivalence cfg0 reqBytes [("proxies", 7)] rfl⟩

/-- Claim C3: a connect-level failure before any read — a new-connection
failure, or a generic connection error not carrying a protocol error —
makes `send` fail with `ConnectionFailure` (`ServiceRequestError`)
preserving the cause, and no response value is returned. -/
theorem c3_connect_failure {α : Type} (cfg : ConnectionConfig α)
    (request : HttpRequest α) (e : UnderlyingExc)
    (h : isConnectLevelFailure e = true) :
    send cfg request (.exc e) = .failure (.serviceRequestError e) ∧
    isResponse (send cfg request (.exc e)) = false := by
  cases e with
  | newConnectionError => exact ⟨rfl, rfl⟩
  | connectionError args =>
      cases args with
      | nil => exact ⟨rfl, rfl⟩
      | cons a rest =>
          cases a with
          | protocolError => simp [isConnectLevelFailure] at h
          | otherArg => exact ⟨rfl, rfl⟩
  | readTimeout => simp [isConnectLevelFailure] at h
  | chunkedEncodingError => simp [isConnectLevelFailure] at h
  | otherRequestException => simp [isConnectLevelFailure] at h
  | nonRequestsException => simp [isConnectLevelFailure] at h

/-- Claim C3 witness: the theorem at a concrete refused-connection
failure. -/
theorem c3_witness :
    isConnectLevelFailure .newConnectionError = true ∧
    (send cfg0 req0 (.exc .newConnectionError) =
        .failure (.serviceRequestError .newConnectionError) ∧
      isResponse (send cfg0 req0 (.exc .newConnectionError)) = false) :=
  ⟨rfl, c3_connect_failure cfg0 req0 .newConnectionError rfl⟩

/-- Claim C4: a read timeout after the connection was established makes
`send` fail with `ResponseFailure` (`ServiceResponseError`) preserving the
cause. -/
theorem c4_read_timeout {α : Type} (cfg : ConnectionConfig α)
    (request : HttpRequest α) :
    send cfg request (.exc .readTimeout) =
      .failure (.serviceResponseError .readTimeout) := by
  rfl

/-- Claim C5: a transfer truncated mid-stream, reported by the underlying
library as a chunked-encoding error, surfaces as `IncompleteBodyFailure`
(`IncompleteReadError`) preserving the cause. -/
theorem c5_truncated_transfer {α : Type} (cfg : ConnectionConfig α)
    (request : HttpRequest α) :
    send cfg request (.exc .chunkedEncodingError) =
      .failure (.incompleteReadError .chunkedEncodingError) := by
  rfl

/-- Claim C6: a streaming read error other than the stream-consumed case is
logged at warning level, then the underlying connection is closed, and the
error is then surfaced unchanged to the caller — the event trace
`[logWarning, closeConnection]` happens, in that order, before
propagation. -/
theorem c6_stream_read_error (code : Nat) :
    anext (.readError code) =
      (.raisedReadError code, [.logWarning, .closeConnection]) := by
  rfl

/-- Claim C7: a stream-already-consumed error during a streaming pull is
re-raised unchanged, with no connection closure and no warning log (empty
event trace). -/
theorem c7_stream_consumed :
    anext .streamConsumed = (.raisedStreamConsumed, []) := by
  rfl

/-- Claim C8: an empty chunk from the underlying iterator — and likewise an
absent one (iterator exhaustion) — terminates the streaming sequence
normally with `StopAsyncIteration`, closing the underlying connection as
part of that termination. -/
theorem c8_empty_chunk_terminates :
    anext (.chunk []) = (.stopAsyncIteration, [.closeConnection]) ∧
    anext .stopIteration = (.stopAsyncIteration, [.closeConnection]) := by
  exact ⟨rfl, rfl⟩

/-- Claim C9: `length()` on a stream handle returns the declared content
length captured from the `Content-Length` header when streaming began (`0`
if absent), and its value after any number of pulls equals its value at the
start — it is never updated as bytes arrive. -/
theorem c9_length_static (response : TransportResponse)
    (iter : List PullOutcome) (n : Nat) :
    (mkGenerator response iter).len =
      (response.headers.lookup "Content-Length").getD 0 ∧
    (consumePulls (mkGenerator response iter) n).len =
      (mkGenerator response iter).len := by
  refine ⟨rfl, ?_⟩
  generalize mkGenerator response iter = g
  induction n generalizing g with
  | zero => rfl
  | succ n ih => rw [consumePulls, ih, anextStep_len]

/-- Claim C10: a `trio_limiter` keyword option is passed to the
worker-dispatch primitive as its limiter, yet is not removed from the
keyword options, so the same key is also forwarded among the extra
transport keyword options to the blocking request call. -/
theorem c10_trio_limiter_forwarded {α : Type} (cfg : ConnectionConfig α)
    (request : HttpRequest α) (kwargs : List (String × α)) (v : α)
    (h : kwargs.lookup "trio_limiter" = some v) :
    (primarySessionCall cfg request kwargs).limiter = some v ∧
    (primarySessionCall cfg request kwargs).extraKwargs.lookup "trio_limiter"
      = some v := by
  refine ⟨h, ?_⟩
  simp only [primarySessionCall, popKw, popKwOpt]
  rw [lookup_removeKw_ne _ _ (by decide), lookup_removeKw_ne _ _ (by decide),
    lookup_removeKw_ne _ _ (by decide), lookup_removeKw_ne _ _ (by decide)]
  exact h

/-- Claim C10 witness: the theorem at concrete keyword options carrying a
limiter. -/
theorem c10_witness :
    ([("trio_limiter", 5)] : List (String × Nat)).lookup "trio_limiter" =
      some 5 ∧
    ((primarySessionCall cfg0 req0 [("trio_limiter", 5)]).limiter = some 5 ∧
      (primarySessionCall cfg0 req0
            [("trio_limiter", 5)]).extraKwargs.lookup "trio_limiter" =
        some 5) :=
  ⟨rfl, c10_trio_limiter_forwarded cfg0 req0 [("trio_limiter", 5)] 5 rfl⟩

end AzureCoreTrio
